import Mathlib

/-!
Verification of the user-resource REST handlers.

The development shallowly embeds the three source files:
* `src/app/api/(auth)/users/route.ts` — the `GET`, `PATCH` and `DELETE`
  route handlers (the `POST` handler is not needed by any stated property);
* `src/unnamed/part_000` — the `handleError` error normalizer;
* `src/unnamed/part_001` — the cached Prisma client accessor.

JavaScript request bodies are modelled as association lists of JSON values,
the data store as a list of user rows, and each handler as a pure function
from (store, body) to (response, store).  Failures thrown by the data-store
query are modelled explicitly where a claim needs them (`GET`).
-/

/-- A JSON value, as parsed from a request body by `request.json()`.
`undefined` (an absent object field) is represented by `Option.none` at the
lookup site, not by a constructor. -/
inductive JValue where
  | null
  | bool (b : Bool)
  | num (n : Int)
  | str (s : String)
  | arr (xs : List JValue)
  | obj (fs : List (String × JValue))

/-- A parsed JSON request body: an association list of fields.
`jlookup body k = none` models `body.k === undefined`. -/
abbrev Body := List (String × JValue)

/-- Field access `body.k`: the first binding of `k`, or `none` (undefined). -/
def jlookup (body : Body) (k : String) : Option JValue :=
  (body.find? (fun p => p.1 == k)).map (fun p => p.2)

/-- JavaScript truthiness of a defined value: `null`, `false`, `0` and `""`
are falsy, everything else defined is truthy. -/
def jsTruthy : JValue → Bool
  | JValue.null => false
  | JValue.bool b => b
  | JValue.num n => n != 0
  | JValue.str s => s != ""
  | JValue.arr _ => true
  | JValue.obj _ => true

/-- `typeof v === "string"`. -/
def isJsString : JValue → Bool
  | JValue.str _ => true
  | _ => false

/-- The underlying string of a string value (only meaningful under
`isJsString`). -/
def jsStringVal : JValue → String
  | JValue.str s => s
  | _ => ""

/-- JavaScript `s.trim()`: the string with leading and trailing whitespace
characters removed. -/
def jsTrim (s : String) : String :=
  ⟨((s.data.dropWhile Char.isWhitespace).reverse.dropWhile
      Char.isWhitespace).reverse⟩

/-- The id-validation guard shared by `PATCH` and `DELETE`
(route.ts: `!body.id || typeof body.id !== "string" || body.id.trim() === ""`).
`true` means the request is rejected with 400. -/
def invalidId (body : Body) : Bool :=
  match jlookup body "id" with
  | none => true
  | some v => !jsTruthy v || !isJsString v || jsTrim (jsStringVal v) == ""

/-- The (string) id of a body that passed validation
(`body.id`, untrimmed, exactly as used in the `where: { id: body.id }`
clauses of route.ts). -/
def idOf (body : Body) : String :=
  match jlookup body "id" with
  | some (JValue.str s) => s
  | _ => ""

/-- Modelled from the spec: the persisted `User` record (§3: identifier,
username, password).  `username`/`password` are `Option JValue` so that the
"absent/undefined" write of §9 is representable; `otherFields` stands for
any further stored attributes of the row, so that frame properties
("every other field unchanged") can be stated.  The Prisma schema itself is
not under `src/`. -/
structure User where
  id : String
  username : Option JValue
  password : Option JValue
  otherFields : List (String × JValue)

/-- The data store: the list of persisted user rows.  The spec's invariant
(§3) is that `id` determines at most one row. -/
abbrev Store := List User

/-- The body of a JSON HTTP response produced by the handlers. -/
inductive RespBody where
  /-- `{ message: m }` (shape produced by `handleError` and the empty-list
  branch of `GET`). -/
  | msg (m : String)
  /-- `{ error: e }` (shape of the local 400/404 validation responses). -/
  | err (e : String)
  /-- `{ user: u, message: m }` (success shape of `PATCH`/`DELETE`). -/
  | userMsg (u : User) (m : String)
  /-- a bare JSON array of users (success shape of `GET`). -/
  | users (us : List User)

/-- An HTTP response: status code plus JSON body
(`NextResponse.json(body, { status })`). -/
structure Response where
  status : Nat
  body : RespBody

/-- A value thrown inside a handler's `try` block: either an `Error`
instance carrying a message, or any other JavaScript value. -/
inductive JSError where
  | error (message : String)
  | other (v : JValue)

/-- JavaScript string concatenation `message + errMessage` where `message`
may be `undefined`: `undefined + s` coerces to `"undefined" ++ s`. -/
def jsConcat (message : Option String) (errMessage : String) : String :=
  match message with
  | some p => p ++ errMessage
  | none => "undefined" ++ errMessage

/-- `handleError` from `src/unnamed/part_000`: if the error is an `Error`
instance, the body message is the optional prefix concatenated (by
JavaScript `+`) with the error's message; otherwise it is
`"An unknown error occurred"`.  The status is always the caller's. -/
def handleError (error : JSError) (statusCode : Nat) (message : Option String) :
    Response :=
  let errorMessage :=
    match error with
    | JSError.error m => jsConcat message m
    | JSError.other _ => "An unknown error occurred"
  ⟨statusCode, RespBody.msg errorMessage⟩

/-- `GET` from route.ts.  The argument is the outcome of
`prisma.user.findMany()`: `Except.ok` carries the full list of stored rows,
`Except.error` the thrown value, which is routed to `handleError` with
status 404 and the string "Error Fetching Users". -/
def GET (result : Except JSError (List User)) : Response :=
  match result with
  | Except.ok allUsers =>
    if allUsers.length == 0 then
      ⟨404, RespBody.msg "No users found"⟩
    else
      ⟨200, RespBody.users allUsers⟩
  | Except.error e => handleError e 404 (some "Error Fetching Users")

/-- Modelled from the spec (§4.3, §9): `prisma.user.update` with
`data: { username: body.username, password: body.password }` overwrites
exactly the `username` and `password` columns of the addressed row with the
given (possibly absent) values and leaves every other field of the row
unchanged.  The Prisma client implementation is not under `src/`. -/
def applyUpdate (u : User) (un pw : Option JValue) : User :=
  { u with username := un, password := pw }

/-- Modelled from the spec (§3 invariant: `id` determines at most one row):
the store after `prisma.user.update({ where: { id }, data })` — the
addressed row is rewritten, all other rows are untouched. -/
def storeUpdate (db : Store) (i : String) (un pw : Option JValue) : Store :=
  db.map (fun u => if u.id == i then applyUpdate u un pw else u)

/-- Modelled from the spec (§3 invariant, §4.3 Delete): the store after
`prisma.user.delete({ where: { id } })` — the addressed row is removed,
all other rows are untouched. -/
def storeDelete (db : Store) (i : String) : Store :=
  db.filter (fun u => !(u.id == i))

/-- `PATCH` from route.ts, on executions in which the data-store calls
succeed: validate `body.id`, look the row up, overwrite its `username` and
`password` with `body.username` / `body.password`, and answer 200 with the
updated row.  Returns the response together with the store after the
request. -/
def PATCH (db : Store) (body : Body) : Response × Store :=
  if invalidId body then
    (⟨400, RespBody.err "Invalid or missing user ID"⟩, db)
  else
    let i := idOf body
    match db.find? (fun u => u.id == i) with
    | none => (⟨404, RespBody.err "User not found"⟩, db)
    | some existingUser =>
      let user := applyUpdate existingUser (jlookup body "username")
        (jlookup body "password")
      (⟨200, RespBody.userMsg user "User updated successfully"⟩,
        storeUpdate db i (jlookup body "username") (jlookup body "password"))

/-- `DELETE` from route.ts, on executions in which the data-store calls
succeed: validate `body.id`, look the row up, remove it, and answer 200
with the removed row's prior data. -/
def DELETE (db : Store) (body : Body) : Response × Store :=
  if invalidId body then
    (⟨400, RespBody.err "Invalid or missing user ID"⟩, db)
  else
    let i := idOf body
    match db.find? (fun u => u.id == i) with
    | none => (⟨404, RespBody.err "User not found"⟩, db)
    | some existingUser =>
      (⟨200, RespBody.userMsg existingUser "User deleted successfully"⟩,
        storeDelete db i)

/-- State of the process-wide globals relevant to `src/unnamed/part_001`:
the `globalThis.prisma` slot (a retained client handle, if any) and a
counter numbering the `PrismaClient` constructions performed so far; a
handle is identified by its construction number. -/
structure GlobalState where
  globalSlot : Option Nat
  nextHandle : Nat
deriving DecidableEq, Repr

/-- One evaluation of the module `src/unnamed/part_001`
(a module load or hot reload): `prisma = globalForPrisma.prisma ?? new
PrismaClient(...)`, then `if NODE_ENV !== "production"
globalForPrisma.prisma = prisma`.  Returns the module's exported handle and
the globals afterwards. -/
def loadPrismaModule (production : Bool) (g : GlobalState) :
    Nat × GlobalState :=
  let (prisma, g1) :=
    match g.globalSlot with
    | some h => (h, g)
    | none => (g.nextHandle, { g with nextHandle := g.nextHandle + 1 })
  if production then (prisma, g1)
  else (prisma, { g1 with globalSlot := some prisma })

/-- The globals of a freshly started process: empty `globalThis.prisma`
slot, no handle constructed yet. -/
def freshGlobals : GlobalState := ⟨none, 0⟩

/-- Iterated module reloads: the handle returned by the last of
`n + 1` successive evaluations of the module, and the final globals. -/
def loadPrismaTimes (production : Bool) (g : GlobalState) :
    Nat → Nat × GlobalState
  | 0 => loadPrismaModule production g
  | n + 1 =>
    let (_, g1) := loadPrismaModule production g
    loadPrismaTimes production g1 n

/-! ## Shared helper lemmas -/

/-- A body whose `id` field is a string with non-empty trim passes the
validation guard. -/
theorem invalidId_eq_false (body : Body) (s : String)
    (hid : jlookup body "id" = some (JValue.str s)) (hs : jsTrim s ≠ "") :
    invalidId body = false := by
  have hs0 : s ≠ "" := by
    intro h
    apply hs
    rw [h]
    rfl
  simp [invalidId, hid, jsTruthy, isJsString, jsStringVal, hs, hs0]

/-- Under the same hypotheses, `idOf` extracts exactly that string. -/
theorem idOf_eq (body : Body) (s : String)
    (hid : jlookup body "id" = some (JValue.str s)) : idOf body = s := by
  simp [idOf, hid]

/-! ## C2 / C9: the error normalizer -/

/-- C2: for a structured failure (`Error` instance) with message `M`,
`handleError` answers with exactly the supplied status and body
`{ message: P ++ M }`, no separator inserted; for a non-structured failure
the body is `{ message: "An unknown error occurred" }` whatever the prefix;
the status is always the caller-supplied one, never inferred from the
error. -/
theorem handleError_contract (m : String) (sc : Nat) (p : String)
    (v : JValue) (e : JSError) (mp : Option String) :
    handleError (JSError.error m) sc (some p) =
      ⟨sc, RespBody.msg (p ++ m)⟩ ∧
    handleError (JSError.other v) sc mp =
      ⟨sc, RespBody.msg "An unknown error occurred"⟩ ∧
    (handleError e sc mp).status = sc := by
  refine ⟨rfl, rfl, ?_⟩
  cases e <;> rfl

/-- C9: with the optional prefix absent, JavaScript `+` coerces `undefined`
to the string "undefined", so the body message is `"undefined" ++ M`, not
`M` alone. -/
theorem handleError_no_message_coerces_undefined (m : String) (sc : Nat) :
    handleError (JSError.error m) sc none =
      ⟨sc, RespBody.msg ("undefined" ++ m)⟩ ∧
    handleError (JSError.error m) sc none ≠ ⟨sc, RespBody.msg m⟩ := by
  refine ⟨rfl, ?_⟩
  intro h
  have hb : RespBody.msg ("undefined" ++ m) = RespBody.msg m :=
    congrArg Response.body h
  have hmsg : "undefined" ++ m = m := by
    injection hb
  have hlen := congrArg String.length hmsg
  simp [String.length_append] at hlen
  exact absurd hlen (by decide)

/-! ## C5 / C6: the List (GET) handler -/

/-- C5: `GET` on an empty store answers 404 `{ message: "No users found" }`;
on a non-empty store it answers 200 with exactly the stored records. -/
theorem get_contract (us : List User) :
    GET (Except.ok []) = ⟨404, RespBody.msg "No users found"⟩ ∧
    (us ≠ [] → GET (Except.ok us) = ⟨200, RespBody.users us⟩) := by
  refine ⟨rfl, fun h => ?_⟩
  simp [GET, List.length_eq_zero, h]

/-- C5 witness: a one-element store is answered with 200 and that list. -/
theorem get_contract_witness :
    ([(⟨"a", none, none, []⟩ : User)] ≠ ([] : List User)) ∧
    GET (Except.ok [(⟨"a", none, none, []⟩ : User)]) =
      ⟨200, RespBody.users [(⟨"a", none, none, []⟩ : User)]⟩ :=
  ⟨by simp, (get_contract [⟨"a", none, none, []⟩]).2 (by simp)⟩

/-- C6: when the store query fails, `GET` answers exactly with the error
normalizer applied at status 404 and the text "Error Fetching Users", so
the caller sees status 404, not 500. -/
theorem get_failure_contract (e : JSError) :
    GET (Except.error e) = handleError e 404 (some "Error Fetching Users") ∧
    (GET (Except.error e)).status = 404 ∧
    (GET (Except.error e)).status ≠ 500 := by
  refine ⟨rfl, ?_, ?_⟩ <;> cases e <;> simp [GET, handleError]

/-! ## C3 / C4: id validation and the not-found path -/

/-- C3: a body whose `id` is absent, not a string, or empty/whitespace-only
after trimming is answered by both `PATCH` and `DELETE` with exactly 400 and
`{ error: "Invalid or missing user ID" }`, leaving the store untouched, and
that response is never one produced by the error normalizer. -/
theorem patch_delete_invalid_id (db : Store) (body : Body)
    (h : jlookup body "id" = none ∨
      (∃ v, jlookup body "id" = some v ∧ isJsString v = false) ∨
      (∃ s, jlookup body "id" = some (JValue.str s) ∧ jsTrim s = "")) :
    PATCH db body = (⟨400, RespBody.err "Invalid or missing user ID"⟩, db) ∧
    DELETE db body = (⟨400, RespBody.err "Invalid or missing user ID"⟩, db) ∧
    (∀ (e : JSError) (sc : Nat) (mp : Option String),
      (PATCH db body).1 ≠ handleError e sc mp ∧
      (DELETE db body).1 ≠ handleError e sc mp) := by
  have hinv : invalidId body = true := by
    rcases h with h | ⟨v, hv, hns⟩ | ⟨s, hs, ht⟩
    · simp [invalidId, h]
    · simp [invalidId, hv, hns]
    · simp [invalidId, hs, jsTruthy, isJsString, jsStringVal, ht]
  refine ⟨by simp [PATCH, hinv], by simp [DELETE, hinv], ?_⟩
  intro e sc mp
  cases e <;> constructor <;>
    simp [PATCH, DELETE, hinv, handleError, Response.mk.injEq]

/-- C3 witness: the empty body (no `id` at all) is rejected with 400 by
both handlers. -/
theorem patch_delete_invalid_id_witness :
    PATCH [] [] = (⟨400, RespBody.err "Invalid or missing user ID"⟩, []) ∧
    DELETE [] [] = (⟨400, RespBody.err "Invalid or missing user ID"⟩, []) :=
  ⟨(patch_delete_invalid_id [] [] (Or.inl rfl)).1,
   (patch_delete_invalid_id [] [] (Or.inl rfl)).2.1⟩

/-- C4: a body whose `id` passes validation but matches no stored row is
answered by both `PATCH` and `DELETE` with 404 and
`{ error: "User not found" }`, leaving the store untouched. -/
theorem patch_delete_user_not_found (db : Store) (body : Body) (s : String)
    (hid : jlookup body "id" = some (JValue.str s)) (hs : jsTrim s ≠ "")
    (hfind : db.find? (fun u => u.id == s) = none) :
    PATCH db body = (⟨404, RespBody.err "User not found"⟩, db) ∧
    DELETE db body = (⟨404, RespBody.err "User not found"⟩, db) := by
  have hinv := invalidId_eq_false body s hid hs
  have hio := idOf_eq body s hid
  constructor <;> simp [PATCH, DELETE, hinv, hio, hfind]

/-- C4 witness: a well-formed id over the empty store yields the 404
not-found response from both handlers. -/
theorem patch_delete_user_not_found_witness :
    PATCH [] [("id", JValue.str "u1")] =
      (⟨404, RespBody.err "User not found"⟩, []) ∧
    DELETE [] [("id", JValue.str "u1")] =
      (⟨404, RespBody.err "User not found"⟩, []) :=
  ⟨(patch_delete_user_not_found [] [("id", JValue.str "u1")] "u1" rfl
      (by decide) rfl).1,
   (patch_delete_user_not_found [] [("id", JValue.str "u1")] "u1" rfl
      (by decide) rfl).2⟩

/-! ## C10: 400/404 responses never mutate the store -/

/-- C10: whenever `PATCH` or `DELETE` answers with status 400 or 404, the
store after the request equals the store before it. -/
theorem patch_delete_error_responses_preserve_store (db : Store)
    (body : Body) :
    ((PATCH db body).1.status = 400 ∨ (PATCH db body).1.status = 404 →
      (PATCH db body).2 = db) ∧
    ((DELETE db body).1.status = 400 ∨ (DELETE db body).1.status = 404 →
      (DELETE db body).2 = db) := by
  constructor
  · intro h
    by_cases hv : invalidId body
    · simp [PATCH, hv]
    · cases hfind : db.find? (fun u => u.id == idOf body) with
      | none => simp [PATCH, hv, hfind]
      | some u => simp [PATCH, hv, hfind] at h
  · intro h
    by_cases hv : invalidId body
    · simp [DELETE, hv]
    · cases hfind : db.find? (fun u => u.id == idOf body) with
      | none => simp [DELETE, hv, hfind]
      | some u => simp [DELETE, hv, hfind] at h

/-! ## C7: delete of an existing user -/

/-- C7: `DELETE` with a valid id of a stored row answers 200 with
`{ user, message: "User deleted successfully" }` carrying the row's prior
data, and removes the row, so that the row is no longer in the store and a
subsequent `GET` list no longer includes it. -/
theorem delete_existing_user (db : Store) (body : Body) (s : String)
    (u : User)
    (hid : jlookup body "id" = some (JValue.str s)) (hs : jsTrim s ≠ "")
    (hfind : db.find? (fun v => v.id == s) = some u) :
    DELETE db body =
      (⟨200, RespBody.userMsg u "User deleted successfully"⟩,
        storeDelete db s) ∧
    u ∉ (DELETE db body).2 ∧
    (∀ l, GET (Except.ok (DELETE db body).2) = ⟨200, RespBody.users l⟩ →
      u ∉ l) := by
  have hinv := invalidId_eq_false body s hid hs
  have hio := idOf_eq body s hid
  have heq : DELETE db body =
      (⟨200, RespBody.userMsg u "User deleted successfully"⟩,
        storeDelete db s) := by
    simp [DELETE, hinv, hio, hfind]
  have hus : (u.id == s) = true := by
    have := List.find?_some hfind
    simpa using this
  have hnmem : u ∉ storeDelete db s := by
    intro hm
    rw [storeDelete, List.mem_filter, hus] at hm
    simp at hm
  refine ⟨heq, ?_, ?_⟩
  · rw [heq]
    exact hnmem
  · intro l hg
    rw [heq] at hg
    by_cases hlen : (storeDelete db s).length = 0
    · simp [GET, hlen] at hg
    · simp [GET, hlen] at hg
      rw [← hg]
      exact hnmem

/-- C7 witness: deleting the only stored row answers 200 with that row and
leaves a store no longer containing it. -/
theorem delete_existing_user_witness :
    DELETE [(⟨"a", none, none, []⟩ : User)] [("id", JValue.str "a")] =
      (⟨200, RespBody.userMsg (⟨"a", none, none, []⟩ : User)
          "User deleted successfully"⟩,
        storeDelete [(⟨"a", none, none, []⟩ : User)] "a") ∧
    (⟨"a", none, none, []⟩ : User) ∉
      (DELETE [(⟨"a", none, none, []⟩ : User)] [("id", JValue.str "a")]).2 :=
  ⟨(delete_existing_user [⟨"a", none, none, []⟩] [("id", JValue.str "a")]
      "a" ⟨"a", none, none, []⟩ rfl (by decide) rfl).1,
   (delete_existing_user [⟨"a", none, none, []⟩] [("id", JValue.str "a")]
      "a" ⟨"a", none, none, []⟩ rfl (by decide) rfl).2.1⟩

/-! ## C1: update writes exactly the username and password fields -/

/-- C1: `PATCH` with a valid id of a stored row overwrites exactly the
`username` and `password` fields of that row with the body's values
(absent body fields are written as absent), leaves the row's id and every
other stored field unchanged, leaves every other row unchanged, ignores
every other body field, and answers 200 with
`{ user, message: "User updated successfully" }`. -/
theorem patch_updates_only_username_password (db : Store) (body : Body)
    (s : String) (u : User)
    (hid : jlookup body "id" = some (JValue.str s)) (hs : jsTrim s ≠ "")
    (hfind : db.find? (fun v => v.id == s) = some u) :
    PATCH db body =
      (⟨200, RespBody.userMsg
          (applyUpdate u (jlookup body "username") (jlookup body "password"))
          "User updated successfully"⟩,
        storeUpdate db s (jlookup body "username")
          (jlookup body "password")) ∧
    (∀ un pw, (applyUpdate u un pw).id = u.id ∧
      (applyUpdate u un pw).otherFields = u.otherFields ∧
      (applyUpdate u un pw).username = un ∧
      (applyUpdate u un pw).password = pw) ∧
    (∀ v ∈ db, v.id ≠ s → v ∈ (PATCH db body).2) ∧
    (∀ body2 : Body,
      jlookup body2 "id" = jlookup body "id" →
      jlookup body2 "username" = jlookup body "username" →
      jlookup body2 "password" = jlookup body "password" →
      PATCH db body2 = PATCH db body) := by
  have hinv := invalidId_eq_false body s hid hs
  have hio := idOf_eq body s hid
  have heq : PATCH db body =
      (⟨200, RespBody.userMsg
          (applyUpdate u (jlookup body "username") (jlookup body "password"))
          "User updated successfully"⟩,
        storeUpdate db s (jlookup body "username")
          (jlookup body "password")) := by
    simp [PATCH, hinv, hio, hfind]
  refine ⟨heq, fun un pw => ⟨rfl, rfl, rfl, rfl⟩, ?_, ?_⟩
  · intro v hv hneq
    rw [heq]
    have hvb : (v.id == s) = false := by
      simp [hneq]
    refine List.mem_map.2 ⟨v, hv, ?_⟩
    simp [hvb]
  · intro body2 h1 h2 h3
    have hinv2 : invalidId body2 = invalidId body := by
      simp only [invalidId, h1]
    have hio2 : idOf body2 = idOf body := by
      simp only [idOf, h1]
    simp only [PATCH, hinv2, hio2, h2, h3]

/-- C1 witness: updating a row with a body that omits `username` and
`password` and carries an unrelated field writes both as absent, keeps the
id and other stored fields, and answers 200. -/
theorem patch_updates_only_username_password_witness :
    PATCH [(⟨"a", some (JValue.str "old"), some (JValue.str "pw"),
        [("createdAt", JValue.str "t0")]⟩ : User)]
      [("id", JValue.str "a"), ("role", JValue.str "admin")] =
      (⟨200, RespBody.userMsg
          (applyUpdate
            (⟨"a", some (JValue.str "old"), some (JValue.str "pw"),
              [("createdAt", JValue.str "t0")]⟩ : User) none none)
          "User updated successfully"⟩,
        storeUpdate [(⟨"a", some (JValue.str "old"), some (JValue.str "pw"),
            [("createdAt", JValue.str "t0")]⟩ : User)] "a" none none) :=
  (patch_updates_only_username_password
    [(⟨"a", some (JValue.str "old"), some (JValue.str "pw"),
      [("createdAt", JValue.str "t0")]⟩ : User)]
    [("id", JValue.str "a"), ("role", JValue.str "admin")]
    "a"
    (⟨"a", some (JValue.str "old"), some (JValue.str "pw"),
      [("createdAt", JValue.str "t0")]⟩ : User)
    rfl (by decide) rfl).1

/-! ## C8: the cached database-client accessor -/

/-- A load that finds a retained handle in the global slot returns that
handle, constructs nothing, and leaves the globals with the same retained
handle. -/
theorem loadPrismaModule_cached (production : Bool) (h n : Nat) :
    loadPrismaModule production ⟨some h, n⟩ = (h, ⟨some h, n⟩) := by
  cases production <;> rfl

/-- Iterating loads from a state with a retained handle never constructs a
new handle and always returns the retained one. -/
theorem loadPrismaTimes_cached (production : Bool) (h n : Nat) (k : Nat) :
    loadPrismaTimes production ⟨some h, n⟩ k = (h, ⟨some h, n⟩) := by
  induction k with
  | zero => exact loadPrismaModule_cached production h n
  | succ k ih =>
    simp only [loadPrismaTimes, loadPrismaModule_cached]
    exact ih

/-- C8: the accessor constructs the client at most once per process — a
first non-production load constructs one handle and retains it in the
global slot; a load that finds a retained handle reuses it identically
with no new construction; a production load never writes the global slot
(and a single production load constructs exactly one handle); and any
number of reloads from a fresh non-production process always yields the
one handle constructed by the first load. -/
theorem prisma_accessor_constructs_once (g : GlobalState) (h n k : Nat) :
    loadPrismaModule false ⟨none, n⟩ = (n, ⟨some n, n + 1⟩) ∧
    loadPrismaModule true ⟨none, n⟩ = (n, ⟨none, n + 1⟩) ∧
    loadPrismaModule false ⟨some h, n⟩ = (h, ⟨some h, n⟩) ∧
    (loadPrismaModule true g).2.globalSlot = g.globalSlot ∧
    loadPrismaTimes false freshGlobals k = (0, ⟨some 0, 1⟩) := by
  refine ⟨rfl, rfl, loadPrismaModule_cached false h n, ?_, ?_⟩
  · cases g with
    | mk slot nh => cases slot <;> rfl
  · cases k with
    | zero => rfl
    | succ k =>
      have hstep : loadPrismaTimes false freshGlobals (k + 1)
          = loadPrismaTimes false ⟨some 0, 1⟩ k := rfl
      rw [hstep]
      exact loadPrismaTimes_cached false 0 1 k

/-- C10 witness: the empty body is rejected with 400 by both handlers and
the (empty) store is returned unchanged. -/
theorem patch_delete_error_responses_preserve_store_witness :
    (PATCH [] []).2 = ([] : Store) ∧ (DELETE [] []).2 = ([] : Store) :=
  ⟨(patch_delete_error_responses_preserve_store [] []).1 (Or.inl rfl),
   (patch_delete_error_responses_preserve_store [] []).2 (Or.inl rfl)⟩
